import Mathlib

/-!
Shallow embedding of the spreadsheet-structure inference engine of
app-simple.py (AvencionLimited/avencion-data-center): header-row detection,
column-name inference, data cleaning, the upload-time analysis orchestration,
the view-time recovery branch and the substring search route.

A cell is an `Option String`: `none` is a null cell (pandas NaN / openpyxl
None) and `some s` is a cell whose Python str() form is `s`.  Fractional
pruning thresholds (0.5, 0.2, 0.1, 0.05, 0.3, 0.7) are modelled by exact
integer inequalities (e.g. `5 * count ≥ ncols` for the 20% rule); Python
evaluates these products in binary floating point, which can differ from the
exact value only on borderline products that none of the statements below
exercise.
-/

abbrev Cell := Option String
abbrev GridRow := List Cell
abbrev Grid := List GridRow

/-!
String helpers.  The Python string operations used by the pipeline
(strip, lower, `in`, isdigit, replace, join) are implemented over character
lists so that every definition evaluates by kernel reduction.  The data the
pipeline handles is ASCII, where these agree with the Python originals.
-/

/-- Substring occurrence on character lists: does pat occur contiguously. -/
def infixOf (pat : List Char) : List Char → Bool
  | [] => pat.isEmpty
  | c :: rest => pat.isPrefixOf (c :: rest) || infixOf pat rest

/-- Python `pat in s` substring containment. -/
def isSubstrOf (pat s : String) : Bool := infixOf pat.toList s.toList

/-- Python whitespace stripped by str.strip(). -/
def isWSChar (c : Char) : Bool :=
  c == ' ' || c == '\t' || c == '\n' || c == '\r' ||
    c.toNat == 11 || c.toNat == 12

/-- Python str.strip(). -/
def strTrim (s : String) : String :=
  (((s.toList.dropWhile isWSChar).reverse.dropWhile isWSChar).reverse).asString

/-- ASCII lowercase conversion of one character. -/
def toLowerChar (c : Char) : Char :=
  if 65 ≤ c.toNat && c.toNat ≤ 90 then Char.ofNat (c.toNat + 32) else c

/-- Python str.lower() (ASCII range). -/
def strLower (s : String) : String := (s.toList.map toLowerChar).asString

/-- Digit test on a character. -/
def isDigitChar (c : Char) : Bool := 48 ≤ c.toNat && c.toNat ≤ 57

/-- Python str.isdigit: nonempty and all characters are digits. -/
def isDigitStr (s : String) : Bool :=
  !s.toList.isEmpty && s.toList.all isDigitChar

/-- First-occurrence-preserving list of the distinct values of l (the
model of building a Python set and asking for its size). -/
def distinctVals (l : List String) : List String :=
  l.foldl (fun acc v => if acc.contains v then acc else acc ++ [v]) []

def joinSpChars : List String → List Char
  | [] => []
  | [s] => s.toList
  | s :: rest => s.toList ++ ' ' :: joinSpChars rest

/-- Python " ".join. -/
def joinSp (l : List String) : String := (joinSpChars l).asString

/-- Row-retention test of the loaders:
`any(cell is not None and str(cell).strip() for cell in row)`. -/
def nonblankRow (r : GridRow) : Bool :=
  r.any (fun c => match c with | some s => !(strTrim s == "") | none => false)

/-- Stringified, trimmed non-null values of a pandas row:
`[str(val).strip() for val in row.values if pd.notna(val)]`. -/
def rowValues (r : GridRow) : List String := (r.filterMap id).map strTrim

/-- `row.notna().sum()`. -/
def notnaCount (r : GridRow) : Nat := (r.filterMap id).length

def widthOf (g : Grid) : Nat := g.foldr (fun r acc => max r.length acc) 0

/-- pd.DataFrame pads ragged rows with NaN up to the maximal width. -/
def rect (g : Grid) : Grid :=
  g.map (fun r => r ++ List.replicate (widthOf g - r.length) none)

def ffillRowAux : Cell → GridRow → GridRow
  | _, [] => []
  | last, none :: cs => last :: ffillRowAux last cs
  | _, some v :: cs => some v :: ffillRowAux (some v) cs

/-- df.ffill(axis=1): forward fill left-to-right within each row. -/
def ffillRows (g : Grid) : Grid := g.map (ffillRowAux none)

/-- df.ffill(axis=0): forward fill top-to-bottom within each column (via
transpose; the pipeline only ever applies it to rectangular grids). -/
def ffillDown (g : Grid) : Grid := (ffillRows g.transpose).transpose

/-- Header keyword vocabulary of analyze_excel_file line 346. -/
def headerKeywords : List String :=
  ["s/n", "serial", "description", "quantity", "date", "price", "cost", "name",
   "id", "code", "number", "amount", "total", "item", "product", "customer",
   "client", "address", "phone", "email", "annexure", "table", "list",
   "inventory", "asset", "criteria", "assessment", "score", "yes", "no",
   "points"]

/-- Keyword rule of the detector (first scan, app-simple.py lines 341-351):
more than 2 stringified non-null values, a header keyword occurs in their
lowercased space-join, and more than 2 distinct values. -/
def keywordRowPred (r : GridRow) : Bool :=
  let rv := rowValues r
  decide (2 < rv.length) &&
    headerKeywords.any (fun k => isSubstrOf k (strLower (joinSp rv))) &&
    decide (2 < (distinctVals rv).length)

/-- Variety heuristic (second scan, lines 354-363): at least 3 non-null
cells, more than 2 distinct values, and a distinct / non-null ratio of at
least 0.5. -/
def varietyRowPred (r : GridRow) : Bool :=
  let rv := rowValues r
  let u := (distinctVals rv).length
  decide (3 ≤ rv.length) && decide (2 < u) && decide (rv.length ≤ 2 * u)

/-- Third scan (lines 366-370): any non-null cell. -/
def nonemptyRowPred (r : GridRow) : Bool := decide (0 < notnaCount r)

/-- Index of the first row satisfying p, as a row-by-row pandas scan. -/
def firstIdxAux (p : GridRow → Bool) : Grid → Option Nat
  | [] => none
  | r :: rs => if p r then some 0 else (firstIdxAux p rs).map (· + 1)

/-- Header-row detection priority chain of analyze_excel_file lines 337-374:
keyword scan over the first 10 rows, then variety scan over the first
10 rows, then first non-empty row anywhere, then row 0. -/
def headerRowOf (g : Grid) : Nat :=
  match firstIdxAux keywordRowPred (g.take 10) with
  | some i => i
  | none =>
    match firstIdxAux varietyRowPred (g.take 10) with
    | some i => i
    | none =>
      match firstIdxAux nonemptyRowPred g with
      | some i => i
      | none => 0

/-- Assessment-flag vocabulary of infer_column_names line 79. -/
def assessKeywords : List String :=
  ["assessment criteria", "annexure", "score", "yes", "no", "points"]

/-- infer_column_names lines 76-80: the assessment-sheet flag is read off
the first row's (unstripped) non-null text. -/
def isAssessmentOf (rows : Grid) : Bool :=
  match rows with
  | [] => false
  | r0 :: _ =>
    assessKeywords.any (fun k => isSubstrOf k (strLower (joinSp (r0.filterMap id))))

/-- Ordered keyword-category table of infer_column_names lines 93-138,
first matching category wins. -/
def categoryTable : List (List String × String) :=
  [ (["laptop", "computer", "device", "pc", "desktop"], "Device_Type"),
    (["hp", "dell", "lenovo", "apple", "asus", "acer", "toshiba", "samsung"],
      "Manufacturer"),
    (["serial", "sn", "tag", "asset", "inventory"], "Serial_Number"),
    (["price", "cost", "amount", "value", "total"], "Price"),
    (["date", "purchase", "delivery", "received", "issued"], "Date"),
    (["quantity", "qty", "count", "number"], "Quantity"),
    (["location", "place", "office", "department", "building"], "Location"),
    (["condition", "status", "state", "working", "broken"], "Condition"),
    (["description", "details", "notes", "remarks"], "Description"),
    (["name", "title", "item", "product"], "Name"),
    (["id", "code", "reference", "ref"], "ID"),
    (["criteria", "assessment", "evaluation", "requirement"],
      "Assessment_Criteria"),
    (["score", "points", "rating", "grade"], "Score"),
    (["yes", "no", "y/n", "true", "false"], "Response"),
    (["annexure", "annex", "appendix"], "Document_Section"),
    (["sme", "business", "enterprise", "company"], "Business_Info"),
    (["email", "e-mail", "mail"], "Email"),
    (["phone", "mobile", "contact"], "Phone"),
    (["address", "street", "city", "zip"], "Address"),
    (["customer", "client", "user", "person"], "Customer"),
    (["employee", "staff", "worker"], "Employee"),
    (["category", "type", "group"], "Category"),
    (["model", "version", "brand"], "Model") ]

def findCategory (st : String) : Option String :=
  (categoryTable.find? (fun pr => pr.1.any (fun w => isSubstrOf w st))).map (·.2)

/-- Column p of the grid, as pandas column selection on a rectangular df. -/
def colOf (rows : Grid) (p : Nat) : List Cell := rows.map (fun r => r.getD p none)

/-- `str(val).replace('.', '').replace('-', '').isdigit()` of line 162. -/
def isNumericLike (s : String) : Bool :=
  (let t := s.toList.filter (fun c => !(c == '.') && !(c == '-'))
   !t.isEmpty && t.all isDigitChar)

def boolTokens : List String := ["yes", "no", "y", "n", "1", "0"]

/-- Name for one column (position p, raw label lbl, with k names already
chosen), infer_column_names lines 82-172.  The pd.isna(col) disjunct of
line 85 cannot fire for the integer or string labels this pipeline
produces and is not modelled separately. -/
def inferOne (isAssess : Bool) (rows : Grid) (lbl : String) (p k : Nat) : String :=
  let cs := strTrim lbl
  if isDigitStr cs || isSubstrOf "unnamed" (strLower cs) || cs == "" || cs == "nan" then
    let fv := ((colOf rows p).filterMap id).take 5
    if decide (0 < fv.length) then
      let st := strLower (joinSp fv)
      match findCategory st with
      | some nm => nm
      | none =>
        if isAssess then
          if k == 0 then "Assessment_Criteria"
          else if k == 1 then "Description"
          else if k == 2 then "Score_Yes_No"
          else
            let sv := fv.map strLower
            if sv.any (fun v => boolTokens.contains v) then
              "Response_" ++ toString (k - 2)
            else
              "Additional_Info_" ++ toString (k - 2)
        else
          let numc := (fv.filter isNumericLike).length
          if decide (7 * fv.length ≤ 10 * numc) then
            "Numeric_Column_" ++ toString (k + 1)
          else
            "Column_" ++ toString (k + 1)
    else
      "Column_" ++ toString (k + 1)
  else
    cs

def inferAux (isAssess : Bool) (rows : Grid) :
    List String → Nat → List String → List String
  | [], _, acc => acc
  | lbl :: rest, p, acc =>
    inferAux isAssess rows rest (p + 1)
      (acc ++ [inferOne isAssess rows lbl p acc.length])

/-- infer_column_names(df): one inferred name per column, in column order. -/
def inferColumnNames (labels : List String) (rows : Grid) : List String :=
  inferAux (isAssessmentOf rows) rows labels 0 []

/-- Null-like tokens replaced by clean_dataframe line 60. -/
def nullTokens : List String := ["nan", "NaN", "None", "NULL", "null", "N/A", "n/a"]

/-- df.replace(nullTokens, '') — exact whole-cell matches only. -/
def replaceNullTokens (g : Grid) : Grid :=
  g.map (fun r => r.map (fun c =>
    match c with
    | some s => if nullTokens.contains s then some "" else some s
    | none => none))

/-- df.fillna(''). -/
def fillnaEmpty (g : Grid) : Grid :=
  g.map (fun r => r.map (fun c => some (c.getD "")))

def colHasSome (g : Grid) (j : Nat) : Bool := g.any (fun r => (r.getD j none).isSome)

def selectCols (g : Grid) (idxs : List Nat) : Grid :=
  g.map (fun r => idxs.map (fun j => r.getD j none))

/-- clean_dataframe (lines 57-69): null-token replacement, fillna(''), then
dropna of all-NaN rows and of all-NaN columns.  Returns the surviving rows
together with the surviving column positions (pandas keeps the labels of
kept columns). -/
def cleanDataframe (g : Grid) : Grid × List Nat :=
  let g1 := fillnaEmpty (replaceNullTokens g)
  let g2 := g1.filter (fun r => r.any (fun c => c.isSome))
  let keep := (List.range (widthOf g2)).filter (fun j => colHasSome g2 j)
  (selectCols g2 keep, keep)

def colNotna (g : Grid) (j : Nat) : Nat := g.countP (fun r => (r.getD j none).isSome)

structure CleanedTable where
  rows : Grid
  colNames : List String
  headerRow : Nat
  deriving DecidableEq, Repr

/-- Worksheet rows header_row+1 .. min(header_row+1000, max_row) in openpyxl
1-based numbering (analyze_excel_file line 382), restricted to nonblank
rows.  In 0-based terms the scan starts at index header_row itself. -/
def secondRead (ws : Grid) (h : Nat) : Grid :=
  ((ws.take (min (h + 1000) ws.length)).drop h).filter nonblankRow

def questionKeywords : List String :=
  ["does the", "is the", "has the", "how many", "what is", "when", "where", "who"]

def questionRowPred (r : GridRow) : Bool :=
  questionKeywords.any (fun k => isSubstrOf k (strLower (joinSp (rowValues r))))

/-- Better-header test of the repeated-label re-anchor scan (line 400):
more than 3 distinct values and a distinct / total ratio of at least 0.3. -/
def betterHeaderPred (r : GridRow) : Bool :=
  let rv := rowValues r
  let u := (distinctVals rv).length
  decide (3 < u) && decide (3 * rv.length ≤ 10 * u)

/-- First index i in the range [1, min lim g.length) whose row satisfies p,
the shape of both re-anchor scans. -/
def scanFrom1 (p : GridRow → Bool) (g : Grid) (lim : Nat) : Option Nat :=
  (firstIdxAux p ((g.take lim).drop 1)).map (· + 1)

/-- Re-anchoring of analyze_excel_file lines 389-416, applied to the raw
(not yet filled) second-read grid: the repeated-label slice, then the
assessment slice; both triggers read the grid's original first row. -/
def reanchor (g : Grid) : Grid :=
  match g with
  | [] => []
  | r0 :: _ =>
    let frv := rowValues r0
    if decide (3 < frv.length) then
      let g1 :=
        if decide ((distinctVals frv).length ≤ 3) && decide (5 < frv.length) then
          match scanFrom1 betterHeaderPred g 5 with
          | some i => g.drop i
          | none => g
        else g
      let ft := strLower (joinSp frv)
      if isSubstrOf "assessment criteria" ft || isSubstrOf "annexure" ft then
        match scanFrom1 questionRowPred g1 10 with
        | some i => g1.drop i
        | none => g1
      else g1
    else g

/-- analyze_excel_file per-sheet structural analysis (lines 315-476), from
the raw worksheet grid to the cleaned table: bounded load, header
detection on the forward-filled first 100 nonblank rows, second read from
the detected row, re-anchoring, forward fills, all-empty and threshold
pruning (0.2 rows / 0.1 columns, relaxed to 0.1 / 0.05 when nothing
survives), column-name inference and final cleaning. -/
def analyzeTable (ws : Grid) : CleanedTable :=
  let retained := (ws.take 100).filter nonblankRow
  let dfRaw := ffillDown (ffillRows (rect retained))
  let h := headerRowOf dfRaw
  let df0 := rect (secondRead ws h)
  let df1 := reanchor df0
  let df2 := ffillDown (ffillRows df1)
  let df3 := df2.filter (fun r => r.any (fun c => c.isSome))
  let keep1 := (List.range (widthOf df3)).filter (fun j => colHasSome df3 j)
  let df4 := selectCols df3 keep1
  let df5 := df4.filter (fun r => decide (keep1.length ≤ 5 * notnaCount r))
  let keep2 := (List.range keep1.length).filter
    (fun j => decide (df5.length ≤ 10 * colNotna df5 j))
  let df6 := selectCols df5 keep2
  let labels6 := keep2.map (fun j => keep1.getD j 0)
  let relaxed :=
    let w0 := widthOf df0
    let dr1 := df0.filter (fun r => decide (w0 ≤ 10 * notnaCount r))
    let keepR := (List.range w0).filter
      (fun j => decide (dr1.length ≤ 20 * colNotna dr1 j))
    (selectCols dr1 keepR, keepR)
  let picked := if df6.length == 0 then relaxed else (df6, labels6)
  let cleanCols := inferColumnNames (picked.2.map (fun n => toString n)) picked.1
  let cleaned := cleanDataframe picked.1
  { rows := cleaned.1,
    colNames := cleaned.2.map (fun j => cleanCols.getD j ""),
    headerRow := h }

structure ColumnsInfo where
  columns : List String
  total_rows : Nat
  sheets : List String
  header_row : Option Nat
  deriving DecidableEq, Repr

structure Workbook where
  sheetNames : List String
  firstSheet : Grid
  deriving DecidableEq, Repr

/-- The successful branch of analyze_excel_file: the descriptor and the row
count (lines 466-476).  The display-only dtypes and sample_data fields are
not modelled.  Cell values are already strings in this embedding, so the
datetime/string normalization of lines 449-464 is the identity here. -/
def analyzeCore (wb : Workbook) : ColumnsInfo × Nat :=
  let t := analyzeTable wb.firstSheet
  ({ columns := t.colNames, total_rows := t.rows.length,
     sheets := wb.sheetNames, header_row := some t.headerRow }, t.rows.length)

/-- Degraded descriptor of the except branch, lines 481-487. -/
def errorColumnsInfo : ColumnsInfo :=
  { columns := ["Error reading file"], total_rows := 0, sheets := [],
    header_row := none }

/-- analyze_excel_file with its try/except orchestration boundary
(lines 315-487): a raised internal error — modelled as the error case of
the loaded input — yields the fixed degraded descriptor instead of
propagating; the function is total, so the caller never sees an
exception. -/
def analyzeExcelFile (loaded : Except String Workbook) : ColumnsInfo × Nat :=
  match loaded with
  | Except.ok wb => analyzeCore wb
  | Except.error _ => (errorColumnsInfo, 0)

structure SheetData where
  sheets : List String
  columns : List String
  rows : List (List String)
  deriving DecidableEq, Repr

inductive SearchResponse where
  | empty : SearchResponse
  | results (data : List (List String)) (total : Nat)
      (query column sheet : String) : SearchResponse
  | failure (msg : String) : SearchResponse
  deriving DecidableEq, Repr

def responseData : SearchResponse → List (List String)
  | SearchResponse.results d _ _ _ _ => d
  | _ => []

def responseTotal : SearchResponse → Nat
  | SearchResponse.results _ t _ _ _ => t
  | _ => 0

/-- Modelled from the spec: the claim wording "case-insensitive substring
rule" — containment of the lowercased query in the lowercased cell.  This is
NOT the code's matching rule: pandas str.contains(query, case=False,
na=False) defaults to regex=True, so the code hands the query to the Python
re library as a regular expression.  The two coincide exactly when the query
contains no regex metacharacters; containsCI is kept here as the spec-side
rule, to be compared against the code's behaviour. -/
def containsCI (q s : String) : Bool := isSubstrOf (strLower q) (strLower s)

/-- Sheet resolution of lines 956-957: fall back to the first sheet when the
requested name is empty or absent. -/
def resolveSheet (req : String) (sheets : List String) : String :=
  if req == "" || !(sheets.contains req) then sheets.headD "" else req

/-- Row mask of lines 1029-1034, given the compiled pattern's search
function m: a nonempty column filter naming an existing column restricts
the match to that column (its unique index — the route rejects duplicated
labels before reaching this point); otherwise any cell of the row may
match. -/
def searchRowMatch (m : String → Bool) (cols : List String) (colFilter : String)
    (row : List String) : Bool :=
  if !(colFilter == "") && cols.contains colFilter then
    m (row.getD (cols.findIdx (fun c => c == colFilter)) "")
  else
    row.any (fun cell => m cell)

/-- search_spreadsheet route, lines 944-1047.  Two boundary inputs model
the Python-library calls the route delegates to: `loaded` is the cleaned
table re-derived from the stored workbook (error case = load or processing
failure), and `pat` is the compiled query pattern of pandas
str.contains(query, case=False, na=False) with its regex=True default —
`Except.ok m` when re.compile succeeds and `m cell` decides re.search on a
cell, `Except.error e` when the pattern is invalid (re.error).  A valid
column filter naming a duplicated label makes df[column] a DataFrame, whose
missing .str accessor raises before any matching; every raise is caught by
the route's except-handler and surfaced as the error payload. -/
def searchRoute (q colFilter sheetReq : String)
    (loaded : Except String SheetData)
    (pat : Except String (String → Bool)) : SearchResponse :=
  if q == "" then SearchResponse.empty
  else
    match loaded with
    | Except.error e => SearchResponse.failure e
    | Except.ok sd =>
      if !(colFilter == "") && sd.columns.contains colFilter &&
          !(sd.columns.count colFilter == 1) then
        SearchResponse.failure "DataFrame object has no attribute str"
      else
        match pat with
        | Except.error e => SearchResponse.failure e
        | Except.ok m =>
          let mts := sd.rows.filter (searchRowMatch m sd.columns colFilter)
          SearchResponse.results (mts.take 100) mts.length q colFilter
            (resolveSheet sheetReq sd.sheets)

def getColumnLetterFuel : Nat → Nat → String
  | 0, _ => ""
  | _ + 1, 0 => ""
  | fuel + 1, n + 1 =>
    getColumnLetterFuel fuel (n / 26) ++ ([Char.ofNat (65 + n % 26)]).asString

/-- openpyxl.utils.get_column_letter: bijective base-26 column name. -/
def getColumnLetter (n : Nat) : String := getColumnLetterFuel n n

structure SpreadsheetRecord where
  columnsInfo : ColumnsInfo
  rowCount : Nat
  deriving DecidableEq, Repr

/-- Placeholder descriptor written by the view-time recreation branch,
lines 700-707: columns A..J, 10 rows, a single sheet. -/
def recreatePlaceholderInfo : ColumnsInfo :=
  { columns := (List.range 10).map (fun i => getColumnLetter (i + 1)),
    total_rows := 10, sheets := ["Sheet1"], header_row := none }

def recoverSpreadsheet (s : SpreadsheetRecord) : SpreadsheetRecord :=
  { s with columnsInfo := recreatePlaceholderInfo, rowCount := 10 }

/-- view_spreadsheet load/recovery flow, lines 681-718: a clean load leaves
the record untouched; a corrupt load followed by a successful recreation
overwrites the stored descriptor and row count; a failed recreation leaves
the record untouched and redirects with an error. -/
def viewRecovery (s : SpreadsheetRecord) (load recreate : Except String Unit) :
    SpreadsheetRecord :=
  match load with
  | Except.ok _ => s
  | Except.error _ =>
    match recreate with
    | Except.ok _ => recoverSpreadsheet s
    | Except.error _ => s

/-- Scenario A worksheet: a decorative repeated-label row, the real header
row, then two data rows (openpyxl pads every row to the sheet width). -/
def wsC1 : Grid :=
  [ [some "Form", some "Form", some "Form", some "Form", some "Form", some "Form"],
    [some "S/N", some "Description", some "Qty", some "Price", none, none],
    [some "1", some "Laptop", some "2", some "500", none, none],
    [some "2", some "Mouse", some "5", some "20", none, none] ]

def wbC1 : Workbook := { sheetNames := ["Sheet1"], firstSheet := wsC1 }

/-- Worksheet whose second row holds only the literal token "nan". -/
def wsC4 : Grid :=
  [ [some "S/N", some "Description", some "Qty"],
    [some "nan", some "nan", some "nan"],
    [some "1", some "Laptop", some "5"] ]

/-- Assessment-flagged table with 4 content-inferred columns; the fourth
column samples to ["Yes", "No", "Yes"]. -/
def dfC6 : Grid :=
  [ [some "zzz", some "qqq", some "rrr", some "Yes"],
    [some "zza", some "qqa", some "rra", some "No"],
    [some "zzb", some "qqb", some "rrb", some "Yes"] ]

/-- 101 identical matching rows, to exercise the 100-row search cap. -/
def sdW : SheetData :=
  { sheets := ["Sheet1"], columns := ["Col"], rows := List.replicate 101 ["a"] }

/-- Compiled search function of the query pattern "." under re.IGNORECASE:
re.search finds a match iff the cell has at least one character (the dot
metacharacter matches any character except a newline, and the cells here
contain none).  Modelled from the Python re library semantics to which
pandas str.contains delegates the query with its regex=True default. -/
def dotSearch (s : String) : Bool := !s.toList.isEmpty

/-- A one-row table whose only cell is "abc": it contains no literal "."
but is matched by the regex ".". -/
def sdDot : SheetData :=
  { sheets := ["Sheet1"], columns := ["Col"], rows := [["abc"]] }

/-- A grid whose row 0 satisfies only the variety heuristic and whose row 1
satisfies the keyword rule. -/
def gC3 : Grid :=
  [ [some "aa", some "bb", some "cc"],
    [some "price", some "cost", some "qty", some "xx"] ]

/-!
General lemmas about the helper functions, shared by the claim theorems.
-/

theorem getD_take (g : Grid) : ∀ (n j : Nat), j < n →
    (g.take n).getD j [] = g.getD j [] := by
  induction g with
  | nil => intro n j _; simp
  | cons a t ih =>
    intro n j h
    cases n with
    | zero => omega
    | succ m =>
      cases j with
      | zero => simp
      | succ i => simpa using ih m i (by omega)

theorem firstIdxAux_some (p : GridRow → Bool) : ∀ (l : Grid) (k : Nat),
    firstIdxAux p l = some k → k < l.length ∧ p (l.getD k []) = true := by
  intro l
  induction l with
  | nil => intro k h; simp [firstIdxAux] at h
  | cons r rs ih =>
    intro k h
    by_cases hp : p r
    · simp [firstIdxAux, hp] at h
      subst h
      exact ⟨by simp, by simpa using hp⟩
    · simp [firstIdxAux, hp] at h
      obtain ⟨a, ha, hk⟩ := h
      subst hk
      obtain ⟨h1, h2⟩ := ih a ha
      exact ⟨by simpa using Nat.succ_lt_succ h1, by simpa using h2⟩

theorem firstIdxAux_isSome (p : GridRow → Bool) : ∀ (l : Grid) (j : Nat),
    j < l.length → p (l.getD j []) = true →
    (firstIdxAux p l).isSome = true := by
  intro l
  induction l with
  | nil => intro j h; simp at h
  | cons r rs ih =>
    intro j hj hp
    by_cases hr : p r
    · simp [firstIdxAux, hr]
    · cases j with
      | zero => simp at hp; exact absurd hp hr
      | succ i =>
        have h2 := ih i (by simpa using Nat.lt_of_succ_lt_succ hj) (by simpa using hp)
        simp only [firstIdxAux, hr]
        simpa using h2

theorem head_filter_drop_take (p : GridRow → Bool) : ∀ (l : Grid) (h m : Nat),
    h < m → h < l.length → p (l.getD h []) = true →
    (((l.take m).drop h).filter p).head? = some (l.getD h []) := by
  intro l
  induction l with
  | nil => intro h m _ hl; intro _; simp at hl
  | cons a t ih =>
    intro h m hm hl hp
    cases m with
    | zero => omega
    | succ m' =>
      cases h with
      | zero =>
        simp only [List.getD_cons_zero] at hp ⊢
        simp [List.filter_cons, hp]
      | succ h' =>
        have hgoal := ih h' m' (by omega) (by simpa using hl) (by simpa using hp)
        simpa using hgoal

theorem inferAux_length (b : Bool) (rows : Grid) : ∀ (ls : List String) (p : Nat)
    (acc : List String), (inferAux b rows ls p acc).length = acc.length + ls.length := by
  intro ls
  induction ls with
  | nil => intro p acc; simp [inferAux]
  | cons l rest ih =>
    intro p acc
    simp only [inferAux]
    rw [ih]
    simp
    omega

/-!
Claim theorems.
-/

/-- C1 (counterexample): on the Scenario A worksheet the detected header row
is 1, but the analysis result's columns list is NOT the raw header labels
["S/N", "Description", "Qty", "Price"]: the second read re-includes the
header row as data under integer column labels, and every integer-labelled
column is renamed by content inference, so the raw labels never become the
column names. -/
theorem c1_scenarioA_cex :
    (analyzeExcelFile (Except.ok wbC1)).1.header_row = some 1 ∧
    (analyzeExcelFile (Except.ok wbC1)).1.columns ≠
      ["S/N", "Description", "Qty", "Price"] := by decide

/-- C1 (amended): on the Scenario A worksheet with data rows
[1, Laptop, 2, 500] and [2, Mouse, 5, 20], header_row is 1 as the claim
says, but the columns list consists of content-inferred names — here
["Column_1", "Device_Type", "Quantity", "Price", "Price", "Price"] —
rather than the header row's labels. -/
theorem c1_scenarioA_amended :
    (analyzeExcelFile (Except.ok wbC1)).1.header_row = some 1 ∧
    (analyzeExcelFile (Except.ok wbC1)).1.columns =
      ["Column_1", "Device_Type", "Quantity", "Price", "Price", "Price"] := by decide

/-- C2 (counterexample): on the Scenario A worksheet the detected header row
(index 1, whose trimmed values are ["S/N", "Description", "Qty", "Price"])
is NOT excluded from the cleaned table: it contributes the cleaned table's
first row record (forward-filled to the sheet width).  openpyxl's min_row is
1-based, so min_row = header_row + 1 starts at 0-based index header_row. -/
theorem c2_header_included_cex :
    (analyzeTable wsC1).headerRow = 1 ∧
    rowValues (wsC1.getD 1 []) = ["S/N", "Description", "Qty", "Price"] ∧
    (analyzeTable wsC1).rows.getD 0 [] =
      [some "S/N", some "Description", some "Qty", some "Price",
       some "Price", some "Price"] := by decide

/-- C2 (amended): the Data Cleaner operates on the grid starting at
worksheet row header_row + 1 in openpyxl's 1-based numbering, which is
0-based index header_row — the detected header row itself: whenever the row
at index header_row is nonblank, it is the first row the cleaner receives,
so the header row is included in (not excluded from) the cleaned data. -/
theorem c2_cleaner_start_amended (ws : Grid) (h : Nat) (hh : h < ws.length)
    (hnb : nonblankRow (ws.getD h []) = true) :
    (secondRead ws h).head? = some (ws.getD h []) := by
  unfold secondRead
  exact head_filter_drop_take nonblankRow ws h (min (h + 1000) ws.length)
    (by omega) hh hnb

/-- Witness for c2_cleaner_start_amended at the Scenario A worksheet with
h = 1 (its detected header row). -/
theorem c2_cleaner_start_amended_witness :
    1 < wsC1.length ∧ nonblankRow (wsC1.getD 1 []) = true ∧
    (secondRead wsC1 1).head? = some (wsC1.getD 1 []) :=
  ⟨by decide, by decide, c2_cleaner_start_amended wsC1 1 (by decide) (by decide)⟩

/-- C3: the detector's priority chain prefers keyword rows.  If some row j
among the first 10 rows of the grid satisfies the keyword rule while an
earlier row i satisfies only the variety heuristic, then the chosen
header row itself satisfies the keyword rule — in particular it is not the
variety-only row i. -/
theorem c3_detector_priority (g : Grid) (i j : Nat)
    (hij : i < j) (hj10 : j < 10) (hjlen : j < g.length)
    (hkw : keywordRowPred (g.getD j []) = true)
    (hvar : varietyRowPred (g.getD i []) = true)
    (hikw : keywordRowPred (g.getD i []) = false) :
    keywordRowPred (g.getD (headerRowOf g) []) = true ∧ headerRowOf g ≠ i := by
  have hjlen10 : j < (g.take 10).length := by
    simp [List.length_take]
    omega
  have hp : keywordRowPred ((g.take 10).getD j []) = true := by
    rw [getD_take g 10 j hj10]
    exact hkw
  have hsome := firstIdxAux_isSome keywordRowPred (g.take 10) j hjlen10 hp
  obtain ⟨k, hk⟩ := Option.isSome_iff_exists.mp hsome
  have hdr : headerRowOf g = k := by
    unfold headerRowOf
    rw [hk]
  obtain ⟨hklen, hkp⟩ := firstIdxAux_some keywordRowPred (g.take 10) k hk
  have hklen10 : k < 10 := by
    simp [List.length_take] at hklen
    omega
  have hkp' : keywordRowPred (g.getD k []) = true := by
    rw [← getD_take g 10 k hklen10]
    exact hkp
  refine ⟨by rw [hdr]; exact hkp', ?_⟩
  rw [hdr]
  intro hik
  rw [hik] at hkp'
  exact Bool.noConfusion (hkp'.symm.trans hikw)

/-- Witness for c3_detector_priority on gC3: row 0 is variety-only, row 1
matches the keyword rule, and the chosen header row is 1, not 0. -/
theorem c3_detector_priority_witness :
    (0 : Nat) < 1 ∧ (1 : Nat) < 10 ∧ 1 < gC3.length ∧
    keywordRowPred (gC3.getD 1 []) = true ∧
    varietyRowPred (gC3.getD 0 []) = true ∧
    keywordRowPred (gC3.getD 0 []) = false ∧
    (keywordRowPred (gC3.getD (headerRowOf gC3) []) = true ∧ headerRowOf gC3 ≠ 0) :=
  ⟨by decide, by decide, by decide, by decide, by decide, by decide,
    c3_detector_priority gC3 0 1 (by decide) (by decide) (by decide) (by decide)
      (by decide) (by decide)⟩

/-- C4 (code bug): a row holding only the literal token "nan" survives the
whole pipeline as an entirely empty row.  clean_dataframe replaces the
tokens with empty strings and calls fillna('') BEFORE its dropna(how=all)
steps, so the dropna calls see no NaN at all and its own comment
"Remove rows that are completely empty" is dead code: the cleaned table of
wsC4 retains row 1 = ["", "", ""], violating the no-empty invariant. -/
theorem c4_no_empty_invariant_bug :
    (analyzeTable wsC4).rows.length = 3 ∧
    (analyzeTable wsC4).rows.getD 1 [] = [some "", some "", some ""] ∧
    ((analyzeTable wsC4).rows.getD 1 []).all (fun c => c == some "") = true := by decide

/-- C5 (counterexample): two content-inferred columns that match the same
keyword category receive the same name with no trailing-ordinal
disambiguation: a table whose two integer-labelled columns sample to
"price" and "cost" is named ["Price", "Price"], which is not duplicate-free. -/
theorem c5_duplicate_names_cex :
    inferColumnNames ["0", "1"] [[some "price", some "cost"]] = ["Price", "Price"] ∧
    ¬ (inferColumnNames ["0", "1"] [[some "price", some "cost"]]).Nodup := by decide

/-- C5 (amended): column-name inference yields exactly one name per retained
column (the part of the spec sentence that holds), but the names need not
be pairwise distinct: keyword-category names carry no ordinal, and no
collision disambiguation is applied anywhere. -/
theorem c5_one_name_per_column_amended (labels : List String) (rows : Grid) :
    (inferColumnNames labels rows).length = labels.length := by
  unfold inferColumnNames
  rw [inferAux_length]
  simp

/-- C6 (counterexample): on an assessment-flagged table with four
integer-labelled columns whose fourth column samples to
["Yes", "No", "Yes"], the fourth name is NOT "Response_1": the sample text
"yes no yes" matches the yes/no keyword category (checked before the
assessment positional fallback) and the column is named "Response". -/
theorem c6_assessment_fallback_cex :
    isAssessmentOf dfC6 = true ∧
    ((colOf dfC6 3).filterMap id).take 5 = ["Yes", "No", "Yes"] ∧
    inferColumnNames ["0", "1", "2", "3"] dfC6 ≠
      ["Assessment_Criteria", "Description", "Score_Yes_No", "Response_1"] := by decide

/-- C6 (amended): with the fourth column sampling to ["Yes", "No", "Yes"]
the inferred names are ["Assessment_Criteria", "Description",
"Score_Yes_No", "Response"]; the positional "Response_N" fallback only
fires for boolean-like samples that match no keyword category. -/
theorem c6_assessment_fallback_amended :
    inferColumnNames ["0", "1", "2", "3"] dfC6 =
      ["Assessment_Criteria", "Description", "Score_Yes_No", "Response"] := by decide

/-- C7 (counterexample): the query is interpreted as a regular expression,
not a literal substring (pandas str.contains defaults to regex=True).  On a
table with the single row ["abc"] and the query ".", the code's reported
total is 1 — re.search(".") matches any nonempty cell — while the number of
rows matching the claim's case-insensitive substring rule is 0, since "."
does not occur in "abc": the reported total does not equal the
substring-rule match count. -/
theorem c7_regex_not_substring_cex :
    responseTotal (searchRoute "." "" "" (Except.ok sdDot) (Except.ok dotSearch)) = 1 ∧
    (sdDot.rows.filter (fun row => row.any (fun cell => containsCI "." cell))).length = 0 ∧
    responseTotal (searchRoute "." "" "" (Except.ok sdDot) (Except.ok dotSearch)) ≠
      (sdDot.rows.filter (fun row => row.any (fun cell => containsCI "." cell))).length := by
  decide

/-- C7 (amended): for every non-empty query whose pattern compiles (m is
the compiled pattern's case-insensitive search function) and whose column
filter does not name a duplicated label, the search route returns exactly
the first 100 rows matching the code's regex containment rule, in table
order, and the reported total is the length of the full match list — even
when it exceeds 100.  (For metacharacter-free queries the rule coincides
with case-insensitive substring containment; invalid patterns and
duplicated filter labels yield the error payload instead.) -/
theorem c7_search_cap_total (q c s : String) (sd : SheetData)
    (m : String → Bool) (hq : ¬ (q = ""))
    (hnd : (!(c == "") && sd.columns.contains c &&
      !(sd.columns.count c == 1)) = false) :
    searchRoute q c s (Except.ok sd) (Except.ok m) =
      SearchResponse.results
        ((sd.rows.filter (searchRowMatch m sd.columns c)).take 100)
        (sd.rows.filter (searchRowMatch m sd.columns c)).length
        q c (resolveSheet s sd.sheets) ∧
    (responseData (searchRoute q c s (Except.ok sd) (Except.ok m))).length ≤ 100 ∧
    responseTotal (searchRoute q c s (Except.ok sd) (Except.ok m)) =
      (sd.rows.filter (searchRowMatch m sd.columns c)).length := by
  have hq2 : (q == "") = false := beq_eq_false_iff_ne.mpr hq
  have h1 : searchRoute q c s (Except.ok sd) (Except.ok m) =
      SearchResponse.results
        ((sd.rows.filter (searchRowMatch m sd.columns c)).take 100)
        (sd.rows.filter (searchRowMatch m sd.columns c)).length
        q c (resolveSheet s sd.sheets) := by
    simp [searchRoute, hq2]
    intro hc hmem
    simpa [hc, hmem] using hnd
  refine ⟨h1, ?_, ?_⟩
  · rw [h1]
    simp [responseData, List.length_take]
  · rw [h1]
    rfl

/-- Witness for c7_search_cap_total on 101 rows matching the literal query
"a" (whose compiled search function is plain case-insensitive substring
containment): the total is 101 while the data list is capped at 100 rows. -/
theorem c7_search_cap_total_witness :
    ¬ (("a" : String) = "") ∧
    (!(("" : String) == "") && sdW.columns.contains "" &&
      !(sdW.columns.count "" == 1)) = false ∧
    responseTotal (searchRoute "a" "" "" (Except.ok sdW)
      (Except.ok (containsCI "a"))) = 101 ∧
    (responseData (searchRoute "a" "" "" (Except.ok sdW)
      (Except.ok (containsCI "a")))).length = 100 := by
  refine ⟨by decide, by decide, ?_, ?_⟩
  · rw [(c7_search_cap_total "a" "" "" sdW (containsCI "a") (by decide) (by decide)).1]
    decide
  · rw [(c7_search_cap_total "a" "" "" sdW (containsCI "a") (by decide) (by decide)).1]
    decide

/-- C8: when the analysis body raises (the error case of the loaded input),
analyze_excel_file returns the degraded-but-valid descriptor with
columns = ["Error reading file"] and total_rows = 0 instead of propagating;
being a total function, it never hard-fails the upload workflow. -/
theorem c8_error_degraded_descriptor (e : String) :
    analyzeExcelFile (Except.error e) = (errorColumnsInfo, 0) ∧
    errorColumnsInfo.columns = ["Error reading file"] ∧
    errorColumnsInfo.total_rows = 0 :=
  ⟨rfl, rfl, rfl⟩

/-- C9: when the view-time load fails and the recreation succeeds, the
stored record is overwritten with the placeholder descriptor — columns
A through J, total_rows 10, sheets ["Sheet1"] — and row_count 10, for every
prior record state, so the pre-failure descriptor is not preserved. -/
theorem c9_view_recovery_overwrites (s : SpreadsheetRecord) (e : String) :
    viewRecovery s (Except.error e) (Except.ok ()) = recoverSpreadsheet s ∧
    (viewRecovery s (Except.error e) (Except.ok ())).columnsInfo =
      recreatePlaceholderInfo ∧
    (viewRecovery s (Except.error e) (Except.ok ())).rowCount = 10 ∧
    recreatePlaceholderInfo.columns =
      ["A", "B", "C", "D", "E", "F", "G", "H", "I", "J"] ∧
    recreatePlaceholderInfo.total_rows = 10 ∧
    recreatePlaceholderInfo.sheets = ["Sheet1"] :=
  ⟨rfl, rfl, rfl, by decide, rfl, rfl⟩

/-- C10: an empty query short-circuits to the bare empty response — data []
and total 0, with no query/column/sheet echo fields (the empty constructor
carries none) — for EVERY state of the stored file and of the compiled
pattern, including a file whose load would fail: the response is produced
before the workbook is opened. -/
theorem c10_empty_query_short_circuit (c s : String)
    (loaded : Except String SheetData)
    (pat : Except String (String → Bool)) :
    searchRoute "" c s loaded pat = SearchResponse.empty ∧
    responseData (searchRoute "" c s loaded pat) = [] ∧
    responseTotal (searchRoute "" c s loaded pat) = 0 := by
  have h : searchRoute "" c s loaded pat = SearchResponse.empty := by
    simp [searchRoute]
  exact ⟨h, by rw [h]; rfl, by rw [h]; rfl⟩
